import Mathlib

/-!
Shallow embedding of `src/main.rs` of the cargo-try tool.

The program is a straight-line pipeline with external side effects
(temporary-directory creation, running `cargo install`, reading the
sandbox's `bin/` directory, creating a `cwd` directory, and spawning the
located executable).  Each external effect is modelled by an oracle field
of an `Env` record: `none` means the underlying OS call failed, `some v`
means it succeeded with result `v`.  `main_body` is translated statement
by statement from the Rust source as a function of the arguments and the
oracle, returning its outcome together with a trace of the external
actions it performed (including the RAII drop of the temporary
directory, which Rust runs on every exit path of `main_body`, panics
included, since the default panic strategy unwinds).

Rust `Path::join` is embedded as string concatenation with `"/"`.
-/

namespace CargoTry

/-- Rust `char::is_ascii_alphanumeric`: true exactly on `0-9`, `A-Z`, `a-z`. -/
def is_ascii_alphanumeric (c : Char) : Bool :=
  (48 ≤ c.toNat && c.toNat ≤ 57) ||
  (65 ≤ c.toNat && c.toNat ≤ 90) ||
  (97 ≤ c.toNat && c.toNat ≤ 122)

/-- Function `valid_crate_name` from `src/main.rs` lines 58-67: the first character of
the name must exist and be ASCII alphanumeric, and every later character must
be ASCII alphanumeric, `_` or `-`. -/
def valid_crate_name (name : String) : Bool :=
  match name.data with
  | [] => false
  | first :: rest =>
      is_ascii_alphanumeric first &&
      rest.all (fun c => is_ascii_alphanumeric c || c == '_' || c == '-')

/-- Spec-side character class `[A-Za-z0-9]` of the grammar
`^[A-Za-z0-9][A-Za-z0-9_-]*$` (written from the spec's words, for the
refinement statement of claim C3). -/
def grammarHead (c : Char) : Prop :=
  ('A'.toNat ≤ c.toNat ∧ c.toNat ≤ 'Z'.toNat) ∨
  ('a'.toNat ≤ c.toNat ∧ c.toNat ≤ 'z'.toNat) ∨
  ('0'.toNat ≤ c.toNat ∧ c.toNat ≤ '9'.toNat)

/-- Spec-side character class `[A-Za-z0-9_-]` of the grammar of claim C3. -/
def grammarTail (c : Char) : Prop :=
  grammarHead c ∨ c = '_' ∨ c = '-'

/-- Rust `std::process::ExitStatus`, reduced to what the program consumes:
`code` is `ExitStatus::code()` (absent when the child was terminated by a
signal). -/
structure ExitStatus where
  code : Option Int
  deriving DecidableEq

/-- Rust `ExitStatus::success()`: the process exited normally with code 0. -/
def ExitStatus.success (s : ExitStatus) : Bool :=
  s.code == some 0

/-- The command-line arguments of the tool (struct `Args` in `src/main.rs`).
`install_crate` is the `--install-crate` value, `sub_args` the ordered
pass-through arguments. -/
structure Args where
  install_crate : String
  sub_args : List String
  deriving DecidableEq

/-- A command to be handed to the OS: program name plus argument vector
(Rust `std::process::Command`, reduced to what the program sets). -/
structure CommandSpec where
  program : String
  args : List String
  deriving DecidableEq

/-- Function `create_crate_install_command` from `src/main.rs` lines 27-34:
`cargo install <crate> --root <path>`. -/
def create_crate_install_command (install_crate : String) (path : String) :
    CommandSpec :=
  ⟨"cargo", ["install", install_crate, "--root", path]⟩

/-- The file type of a directory entry.  The Rust code never inspects it;
it is carried in the model to state claim C8. -/
inductive FileKind
  | regular
  | directory
  | symlink
  deriving DecidableEq

/-- One successfully read directory entry of the sandbox's `bin/` directory:
`stem` is `path().file_stem()` (lossily decoded), `path` is `path()`.
`kind` and `execBit` (the executable permission) are never read by the
code; they are carried to state claim C8. -/
structure DirEntry where
  stem : String
  path : String
  kind : FileKind
  execBit : Bool
  deriving DecidableEq

/-- Why `find_first_executable` did not return a path. -/
inductive FindErr
  /-- Call `fs::read_dir` itself failed (directory unreadable); propagated by `?`. -/
  | readDirFailed
  /-- The scan finished with no entry whose stem equals the crate name
  (the `anyhow!("Could not find crate ...")` branch). -/
  | notFound
  deriving DecidableEq

/-- Result of `find_first_executable`: a found path, an error, or a panic
(the `path.unwrap()` on a failed individual entry read). -/
inductive FindResult
  | found (p : String)
  | failed (e : FindErr)
  | panicked
  deriving DecidableEq

/-- The loop of `find_first_executable` (`src/main.rs` lines 42-54) over the
entries produced by `read_dir`.  An entry of `none` models an `Err` item of
the iterator, on which the code's `path.unwrap()` panics. -/
def find_loop (crate_name : String) : List (Option DirEntry) → FindResult
  | [] => .failed .notFound
  | none :: _ => .panicked
  | some e :: rest =>
      if e.stem = crate_name then .found e.path else find_loop crate_name rest

/-- Function `find_first_executable` from `src/main.rs` lines 36-56; `listing` is the
outcome of `fs::read_dir search_dir`: `none` when the directory cannot be
read (the `?` propagates the error), otherwise the list of entry-read
results in iteration order. -/
def find_first_executable (crate_name : String)
    (listing : Option (List (Option DirEntry))) : FindResult :=
  match listing with
  | none => .failed .readDirFailed
  | some entries => find_loop crate_name entries

/-- Every individual directory-entry read of the listing succeeded (the
domain on which the scan never hits the `unwrap` panic of claim C9). -/
def entriesReadable : Option (List (Option DirEntry)) → Prop
  | none => True
  | some es => ∀ x ∈ es, x ≠ none

/-- Oracle for the external effects of one invocation, fixed before the run:
each field is the outcome the OS would give to the corresponding call.
`none` always means the underlying call failed. -/
structure Env where
  /-- Outcome of `tempdir()`: the path of the fresh temporary directory, or failure. -/
  tempdir : Option String
  /-- Outcome of `.status()` of the `cargo install` command: the exit
  status, or a spawn failure (`Failed to execute cargo install`). -/
  installStatus : Option ExitStatus
  /-- Outcome of `fs::read_dir` of `<sandbox>/bin`: the entry-read results
  in iteration order, or failure of `read_dir` itself. -/
  binListing : Option (List (Option DirEntry))
  /-- Outcome of `fs::create_dir` of `<sandbox>/cwd`: `some ()` on success. -/
  createCwd : Option Unit
  /-- Outcome of `.status()` of the located executable: its exit status,
  or a spawn failure. -/
  runStatus : Option ExitStatus
  deriving DecidableEq

/-- Externally visible actions of one invocation, in program order. -/
inductive Event
  /-- Call to `tempdir()` created this directory. -/
  | createdTempDir (path : String)
  /-- The install command was run (spawn attempted) with this spec. -/
  | ranInstall (cmd : CommandSpec)
  /-- Function `find_first_executable` scanned this directory for this crate name. -/
  | searchedBin (crate_name : String) (dir : String)
  /-- Call to `fs::create_dir` created this working directory. -/
  | createdCwd (path : String)
  /-- The located executable at `program` was run (spawn attempted) with
  this working directory and argument vector. -/
  | ranExec (program : String) (cwd : String) (args : List String)
  /-- The `TempDir` RAII guard was dropped, recursively deleting `path`. -/
  | droppedTempDir (path : String)
  deriving DecidableEq

/-- The error kinds `main_body` can return (each `anyhow` error of the
source, tagged by the site that produced it). -/
inductive PipelineError
  | invalidCrateName
  | tempdirFailed
  | installSpawnFailed
  /-- Error message says it failed to install and returned with the status
  code `reported`, computed as `output.code().unwrap_or_default()`. -/
  | installFailed (reported : Int)
  | findFailed (e : FindErr)
  | createDirFailed
  | runSpawnFailed
  deriving DecidableEq

/-- Outcome of `main_body`: `Ok(status)`, `Err(e)`, or a panic (from the
entry `unwrap` inside `find_first_executable`). -/
inductive Outcome
  | ok (status : ExitStatus)
  | err (e : PipelineError)
  | panicked
  deriving DecidableEq

/-- Function `main_body` from `src/main.rs` lines 69-121, translated statement by
statement against the oracle `env`; returns the outcome and the trace of
external actions.  The `TempDir` guard `dir` is dropped — deleting the
directory — on every exit path after its creation, panics included
(unwinding), so every trace that contains `createdTempDir` ends with
`droppedTempDir`. -/
def main_body (args : Args) (env : Env) : Outcome × List Event :=
  if valid_crate_name args.install_crate = false then
    (.err .invalidCrateName, [])
  else
    match env.tempdir with
    | none => (.err .tempdirFailed, [])
    | some dir =>
      let cmd := create_crate_install_command args.install_crate dir
      match env.installStatus with
      | none =>
          (.err .installSpawnFailed,
           [.createdTempDir dir, .ranInstall cmd, .droppedTempDir dir])
      | some out =>
        if out.success = false then
          (.err (.installFailed (out.code.getD 0)),
           [.createdTempDir dir, .ranInstall cmd, .droppedTempDir dir])
        else
          let binDir := dir ++ "/bin"
          match find_first_executable args.install_crate env.binListing with
          | .panicked =>
              (.panicked,
               [.createdTempDir dir, .ranInstall cmd,
                .searchedBin args.install_crate binDir, .droppedTempDir dir])
          | .failed e =>
              (.err (.findFailed e),
               [.createdTempDir dir, .ranInstall cmd,
                .searchedBin args.install_crate binDir, .droppedTempDir dir])
          | .found exec_file =>
            let cwd := dir ++ "/cwd"
            match env.createCwd with
            | none =>
                (.err .createDirFailed,
                 [.createdTempDir dir, .ranInstall cmd,
                  .searchedBin args.install_crate binDir, .droppedTempDir dir])
            | some _ =>
              match env.runStatus with
              | none =>
                  (.err .runSpawnFailed,
                   [.createdTempDir dir, .ranInstall cmd,
                    .searchedBin args.install_crate binDir, .createdCwd cwd,
                    .ranExec exec_file cwd args.sub_args, .droppedTempDir dir])
              | some st =>
                  (.ok st,
                   [.createdTempDir dir, .ranInstall cmd,
                    .searchedBin args.install_crate binDir, .createdCwd cwd,
                    .ranExec exec_file cwd args.sub_args, .droppedTempDir dir])

/-- The tool's own process exit code, from `main` (`src/main.rs` lines
123-127): `main_body(&args).unwrap();` discards the `ExitStatus` on `Ok`,
so `main` returns `()` and the process exits 0; on `Err` the `unwrap`
panics, and a panic reaching the top of `main` makes the process exit
with the runtime's panic exit code 101 (non-zero). -/
def main_exit_code (args : Args) (env : Env) : Nat :=
  match (main_body args env).1 with
  | .ok _ => 0
  | .err _ => 101
  | .panicked => 101

/-- Number of occurrences of an event in a trace. -/
def countEvent : List Event → Event → Nat
  | [], _ => 0
  | x :: xs, e => (if x = e then 1 else 0) + countEvent xs e

/-- The temporary directory still existing after the trace has run: the
last creation not followed by a drop. -/
def tempDirLive (tr : List Event) : Option String :=
  tr.foldl
    (fun acc e =>
      match e with
      | .createdTempDir d => some d
      | .droppedTempDir _ => none
      | _ => acc)
    none

/-- A successful invocation used by several concrete checks: valid crate
name `hello`, temporary directory `/t`, install exits 0, `bin/` holds one
regular file with stem `hello`, `cwd` creation succeeds, and the located
executable exits with code 42. -/
def helloEnv : Env :=
  ⟨some "/t", some ⟨some 0⟩,
   some [some ⟨"hello", "/t/bin/hello", .regular, true⟩],
   some (), some ⟨some 42⟩⟩

/-- The arguments of the `helloEnv` invocation. -/
def helloArgs : Args :=
  ⟨"hello", []⟩

/-- Like `helloEnv`, but the located executable is terminated by a signal:
its exit status carries no code. -/
def signalEnv : Env :=
  ⟨some "/t", some ⟨some 0⟩,
   some [some ⟨"hello", "/t/bin/hello", .regular, true⟩],
   some (), some ⟨none⟩⟩

/-- An invocation whose `cargo install` runs but exits with status 101. -/
def failedInstallEnv : Env :=
  ⟨some "/t", some ⟨some 101⟩, some [], some (), some ⟨some 0⟩⟩

/-- An invocation whose `cargo install` is terminated by a signal: it runs
but reports no exit code. -/
def signalInstallEnv : Env :=
  ⟨some "/t", some ⟨none⟩, some [], some (), some ⟨some 0⟩⟩

/-- A `bin/` listing holding two readable regular entries, `other` first. -/
def twoEntryListing : List (Option DirEntry) :=
  [some ⟨"other", "/t/bin/other", .regular, true⟩,
   some ⟨"hello", "/t/bin/hello", .regular, true⟩]

theorem is_ascii_alphanumeric_iff (c : Char) :
    is_ascii_alphanumeric c = true ↔ grammarHead c := by
  have hA : 'A'.toNat = 65 := rfl
  have hZ : 'Z'.toNat = 90 := rfl
  have ha : 'a'.toNat = 97 := rfl
  have hz : 'z'.toNat = 122 := rfl
  have h0 : '0'.toNat = 48 := rfl
  have h9 : '9'.toNat = 57 := rfl
  simp only [is_ascii_alphanumeric, grammarHead, Bool.or_eq_true, Bool.and_eq_true,
    decide_eq_true_eq, hA, hZ, ha, hz, h0, h9]
  constructor
  · rintro ((⟨h1, h2⟩ | ⟨h1, h2⟩) | ⟨h1, h2⟩) <;> omega
  · rintro (⟨h1, h2⟩ | ⟨h1, h2⟩ | ⟨h1, h2⟩) <;> omega

/-- C3: `valid_crate_name s` is true iff `s` is non-empty, its first character
is ASCII alphanumeric, and every later character is ASCII alphanumeric, `_`
or `-` — i.e. iff `s` matches `^[A-Za-z0-9][A-Za-z0-9_-]*$`.  In particular
the empty string (no head character), strings with a leading `-` or `_`
(not in `[A-Za-z0-9]`), and strings containing whitespace or non-ASCII
characters (not in either class) are invalid. -/
theorem valid_crate_name_iff_grammar (s : String) :
    valid_crate_name s = true ↔
      ∃ c cs, s.data = c :: cs ∧ grammarHead c ∧ ∀ x ∈ cs, grammarTail x := by
  unfold valid_crate_name
  cases hd : s.data with
  | nil => simp
  | cons first rest =>
    simp only [Bool.and_eq_true, List.all_eq_true, Bool.or_eq_true, beq_iff_eq]
    constructor
    · rintro ⟨h1, h2⟩
      refine ⟨first, rest, rfl, (is_ascii_alphanumeric_iff first).mp h1, ?_⟩
      intro x hx
      rcases h2 x hx with (h | h) | h
      · exact Or.inl ((is_ascii_alphanumeric_iff x).mp h)
      · exact Or.inr (Or.inl h)
      · exact Or.inr (Or.inr h)
    · rintro ⟨c, cs, hcs, hc, hall⟩
      obtain ⟨rfl, rfl⟩ : first = c ∧ rest = cs := by
        constructor <;> simp_all
      refine ⟨(is_ascii_alphanumeric_iff first).mpr hc, ?_⟩
      intro x hx
      rcases hall x hx with h | h | h
      · exact Or.inl (Or.inl ((is_ascii_alphanumeric_iff x).mpr h))
      · exact Or.inl (Or.inr h)
      · exact Or.inr h

/-- C1 (counterexample): an invocation in which all four stages succeed and
the located executable exits with status code 42, yet the tool's own
process exit code is 0, not 42 — `main` discards the `ExitStatus` that
`unwrap()` returns, so the claimed equality of exit statuses fails. -/
theorem main_exit_code_ignores_child_status :
    (main_body helloArgs helloEnv).1 = .ok ⟨some 42⟩ ∧
    main_exit_code helloArgs helloEnv = 0 ∧
    main_exit_code helloArgs helloEnv ≠ 42 := by
  refine ⟨by decide, by decide, by decide⟩

/-- C1 (amended): the tool's process exit code is 0 exactly when the whole
pipeline succeeds — the artifact's exit status itself is discarded by
`main` — and it is always either 0 or the panic exit code 101, so every
failing invocation (error or panic) exits non-zero. -/
theorem main_exit_code_spec (args : Args) (env : Env) :
    (main_exit_code args env = 0 ↔ ∃ st, (main_body args env).1 = .ok st) ∧
    (main_exit_code args env = 0 ∨ main_exit_code args env = 101) := by
  unfold main_exit_code
  cases h : (main_body args env).1 with
  | ok st => exact ⟨by simp, Or.inl rfl⟩
  | err e => exact ⟨by simp, Or.inr rfl⟩
  | panicked => exact ⟨by simp, Or.inr rfl⟩

/-- C2: after any invocation — success, error, or panic — the temporary
directory no longer exists (no `createdTempDir` is left undropped at the
end of the trace), and for every directory the number of deletions equals
the number of creations: cleanup happens exactly once on every exit path
that created the sandbox, and never otherwise. -/
theorem sandbox_always_deleted (args : Args) (env : Env) :
    tempDirLive (main_body args env).2 = none ∧
    ∀ d : String,
      countEvent (main_body args env).2 (.droppedTempDir d) =
      countEvent (main_body args env).2 (.createdTempDir d) := by
  unfold main_body
  repeat' split
  all_goals exact ⟨rfl, fun d => by simp [countEvent]⟩

/-- C4: when `cargo install` runs but its status is not success, `main_body`
returns exactly the `InstallFailed` error carrying
`code().unwrap_or_default()`, and the trace contains neither an executable
search nor any run of an artifact — the pipeline stops at the install
stage with no retry. -/
theorem install_failure_aborts (args : Args) (env : Env) (dir : String)
    (out : ExitStatus)
    (hv : valid_crate_name args.install_crate = true)
    (hd : env.tempdir = some dir)
    (hs : env.installStatus = some out)
    (hf : out.success = false) :
    (main_body args env).1 = .err (.installFailed (out.code.getD 0)) ∧
    (∀ n b, Event.searchedBin n b ∉ (main_body args env).2) ∧
    (∀ p c a, Event.ranExec p c a ∉ (main_body args env).2) := by
  obtain ⟨td, ist, bl, cc, rs⟩ := env
  dsimp only at hd hs
  subst hd
  subst hs
  refine ⟨?_, fun n b => ?_, fun p c a => ?_⟩ <;>
    simp [main_body, hv, hf]

/-- C4 witness: with install exiting 101, the pipeline ends in
`InstallFailed 101` and no search of `bin/` appears in the trace. -/
theorem install_failure_aborts_witness :
    (main_body helloArgs failedInstallEnv).1 = .err (.installFailed 101) ∧
    Event.searchedBin "hello" ("/t" ++ "/bin") ∉
      (main_body helloArgs failedInstallEnv).2 :=
  ⟨(install_failure_aborts helloArgs failedInstallEnv "/t" ⟨some 101⟩
      (by decide) rfl rfl (by decide)).1,
   (install_failure_aborts helloArgs failedInstallEnv "/t" ⟨some 101⟩
      (by decide) rfl rfl (by decide)).2.1 "hello" ("/t" ++ "/bin")⟩

theorem find_loop_eq_first_match (crate_name : String)
    (es : List (Option DirEntry)) (h : ∀ x ∈ es, x ≠ none) :
    find_loop crate_name es =
      match (es.filterMap id).find? (fun e => e.stem == crate_name) with
      | some e => .found e.path
      | none => .failed .notFound := by
  induction es with
  | nil => rfl
  | cons hd tl ih =>
    cases hd with
    | none => exact absurd rfl (h none (List.mem_cons_self _ _))
    | some e =>
      by_cases heq : e.stem = crate_name
      · simp [find_loop, heq, List.find?_cons_of_pos]
      · have h1 : (e.stem == crate_name) = false := by simp [heq]
        simp only [find_loop, if_neg heq, List.filterMap_cons, id_eq,
          List.find?, h1]
        exact ih (fun x hx => h x (List.mem_cons_of_mem _ hx))

/-- C5: on a listing every entry of which was read successfully (the
unreadable-entry case is claim C9), `find_first_executable` returns the
path of the first directory entry whose file stem equals the crate name
under exact string equality, and fails exactly when the directory itself
is unreadable (`read_dir` error) or when no entry's stem equals the name
— no fuzzy or prefix matching. -/
theorem find_first_executable_spec (crate_name : String)
    (listing : Option (List (Option DirEntry)))
    (h : entriesReadable listing) :
    find_first_executable crate_name listing =
      match listing with
      | none => .failed .readDirFailed
      | some es =>
          match (es.filterMap id).find? (fun e => e.stem == crate_name) with
          | some e => .found e.path
          | none => .failed .notFound := by
  cases listing with
  | none => rfl
  | some es => exact find_loop_eq_first_match crate_name es h

/-- C5 witness: on a readable two-entry listing whose second entry has stem
`hello`, the scan returns that entry's path, in agreement with the
first-exact-match characterization. -/
theorem find_first_executable_spec_witness :
    find_first_executable "hello" (some twoEntryListing) =
      match (some twoEntryListing : Option (List (Option DirEntry))) with
      | none => .failed .readDirFailed
      | some es =>
          match (es.filterMap id).find? (fun e => e.stem == "hello") with
          | some e => .found e.path
          | none => .failed .notFound :=
  find_first_executable_spec "hello" (some twoEntryListing)
    (by simp [entriesReadable, twoEntryListing])

/-- C6: whenever `main_body` succeeds, the located executable was spawned
with working directory `<sandbox>/cwd` — a directory the pipeline created
just before the spawn — and with exactly the caller's pass-through
arguments in their original order; the status `main_body` returns is the
spawn oracle's status verbatim, so a signal-terminated child (status with
no code) is returned as a success with an absent code, not as an error. -/
theorem run_stage_spec (args : Args) (env : Env) (dir : String)
    (st : ExitStatus)
    (hd : env.tempdir = some dir)
    (hok : (main_body args env).1 = .ok st) :
    env.runStatus = some st ∧
    Event.createdCwd (dir ++ "/cwd") ∈ (main_body args env).2 ∧
    ∃ p, Event.ranExec p (dir ++ "/cwd") args.sub_args ∈
      (main_body args env).2 := by
  obtain ⟨td, ist, bl, cc, rs⟩ := env
  dsimp only at hd
  subst hd
  cases hv : valid_crate_name args.install_crate with
  | false => simp [main_body, hv] at hok
  | true =>
    cases ist with
    | none => simp [main_body, hv] at hok
    | some out =>
      cases hsuc : out.success with
      | false => simp [main_body, hv, hsuc] at hok
      | true =>
        cases hfind : find_first_executable args.install_crate bl with
        | panicked => simp [main_body, hv, hsuc, hfind] at hok
        | failed e => simp [main_body, hv, hsuc, hfind] at hok
        | found p =>
          cases cc with
          | none => simp [main_body, hv, hsuc, hfind] at hok
          | some u =>
            cases rs with
            | none => simp [main_body, hv, hsuc, hfind] at hok
            | some st2 =>
              have hst : st2 = st := by
                simpa [main_body, hv, hsuc, hfind] using hok
              subst hst
              refine ⟨rfl, ?_, ⟨p, ?_⟩⟩ <;>
                simp [main_body, hv, hsuc, hfind]

/-- C6 witness: in the signal-terminated run, the child's status (with no
code) is passed through and the working directory `/t/cwd` was created. -/
theorem run_stage_spec_witness :
    signalEnv.runStatus = some ⟨none⟩ ∧
    Event.createdCwd ("/t" ++ "/cwd") ∈ (main_body helloArgs signalEnv).2 :=
  ⟨(run_stage_spec helloArgs signalEnv "/t" ⟨none⟩ rfl (by decide)).1,
   (run_stage_spec helloArgs signalEnv "/t" ⟨none⟩ rfl (by decide)).2.1⟩

/-- C7: once a sandbox exists and the name is valid, the install command
that is run is exactly `cargo install <crate> --root <sandbox>`, and any
executable search the pipeline performs is for that crate name inside
`<sandbox>/bin`. -/
theorem install_command_spec (args : Args) (env : Env) (dir : String)
    (hv : valid_crate_name args.install_crate = true)
    (hd : env.tempdir = some dir) :
    Event.ranInstall ⟨"cargo", ["install", args.install_crate, "--root", dir]⟩ ∈
      (main_body args env).2 ∧
    ∀ n b, Event.searchedBin n b ∈ (main_body args env).2 →
      n = args.install_crate ∧ b = dir ++ "/bin" := by
  obtain ⟨td, ist, bl, cc, rs⟩ := env
  dsimp only at hd
  subst hd
  cases ist with
  | none =>
    refine ⟨?_, fun n b hm => ?_⟩
    · simp [main_body, hv, create_crate_install_command]
    · simp [main_body, hv] at hm
  | some out =>
    cases hsuc : out.success with
    | false =>
      refine ⟨?_, fun n b hm => ?_⟩
      · simp [main_body, hv, hsuc, create_crate_install_command]
      · simp [main_body, hv, hsuc] at hm
    | true =>
      cases hfind : find_first_executable args.install_crate bl with
      | panicked =>
        refine ⟨?_, fun n b hm => ?_⟩
        · simp [main_body, hv, hsuc, hfind, create_crate_install_command]
        · simp [main_body, hv, hsuc, hfind] at hm
          exact hm
      | failed e =>
        refine ⟨?_, fun n b hm => ?_⟩
        · simp [main_body, hv, hsuc, hfind, create_crate_install_command]
        · simp [main_body, hv, hsuc, hfind] at hm
          exact hm
      | found p =>
        cases cc with
        | none =>
          refine ⟨?_, fun n b hm => ?_⟩
          · simp [main_body, hv, hsuc, hfind, create_crate_install_command]
          · simp [main_body, hv, hsuc, hfind] at hm
            exact hm
        | some u =>
          cases rs with
          | none =>
            refine ⟨?_, fun n b hm => ?_⟩
            · simp [main_body, hv, hsuc, hfind, create_crate_install_command]
            · simp [main_body, hv, hsuc, hfind] at hm
              exact hm
          | some st =>
            refine ⟨?_, fun n b hm => ?_⟩
            · simp [main_body, hv, hsuc, hfind, create_crate_install_command]
            · simp [main_body, hv, hsuc, hfind] at hm
              exact hm

/-- C7 witness: the `helloEnv` invocation runs exactly
`cargo install hello --root /t`. -/
theorem install_command_spec_witness :
    Event.ranInstall ⟨"cargo", ["install", "hello", "--root", "/t"]⟩ ∈
      (main_body helloArgs helloEnv).2 :=
  (install_command_spec helloArgs helloEnv "/t" (by decide) rfl).1

/-- C8: the scan checks neither file type nor executable permission: for a
matching entry of any kind (directory, symlink, or regular file with the
executable bit clear) placed after non-matching readable entries, the
entry's path is returned as the "located executable". -/
theorem find_first_executable_ignores_kind (crate_name : String)
    (pre : List DirEntry) (e : DirEntry) (post : List (Option DirEntry))
    (hpre : ∀ x ∈ pre, x.stem ≠ crate_name)
    (he : e.stem = crate_name) :
    find_first_executable crate_name
      (some (pre.map some ++ some e :: post)) = .found e.path := by
  induction pre with
  | nil => simp [find_first_executable, find_loop, he]
  | cons hd tl ih =>
    have h1 : hd.stem ≠ crate_name := hpre hd (List.mem_cons_self _ _)
    simp only [List.map_cons, List.cons_append, find_first_executable,
      find_loop, if_neg h1]
    exact ih (fun x hx => hpre x (List.mem_cons_of_mem _ hx))

/-- C8 witness: a directory without the executable bit, whose stem is
`hello`, is returned as the located executable. -/
theorem find_first_executable_ignores_kind_witness :
    find_first_executable "hello"
      (some ([(⟨"other", "/t/bin/other", .regular, true⟩ : DirEntry)].map some ++
        some (⟨"hello", "/t/bin/hello", .directory, false⟩ : DirEntry) :: [])) =
      .found "/t/bin/hello" :=
  find_first_executable_ignores_kind "hello"
    [⟨"other", "/t/bin/other", .regular, true⟩]
    ⟨"hello", "/t/bin/hello", .directory, false⟩ [] (by decide) rfl

/-- C9: if the directory listing opens but some individual entry read fails
before a match is found, the scan panics (the `unwrap` on the entry) and
in particular never takes the error branch — neither `readDirFailed` nor
the `notFound` error promised by the spec is produced. -/
theorem find_first_executable_entry_error_panics (crate_name : String)
    (pre : List DirEntry) (post : List (Option DirEntry))
    (hpre : ∀ x ∈ pre, x.stem ≠ crate_name) :
    find_first_executable crate_name
      (some (pre.map some ++ none :: post)) = .panicked ∧
    ∀ e, find_first_executable crate_name
      (some (pre.map some ++ none :: post)) ≠ .failed e := by
  have h : find_first_executable crate_name
      (some (pre.map some ++ none :: post)) = .panicked := by
    induction pre with
    | nil => rfl
    | cons hd tl ih =>
      have h1 : hd.stem ≠ crate_name := hpre hd (List.mem_cons_self _ _)
      simp only [List.map_cons, List.cons_append, find_first_executable,
        find_loop, if_neg h1]
      exact ih (fun x hx => hpre x (List.mem_cons_of_mem _ hx))
  exact ⟨h, fun e => by rw [h]; simp⟩

/-- C9 witness: a readable non-matching entry followed by a failed entry
read makes the scan panic. -/
theorem find_first_executable_entry_error_panics_witness :
    find_first_executable "hello"
      (some ([(⟨"other", "/t/bin/other", .regular, true⟩ : DirEntry)].map some ++
        none :: [])) = .panicked :=
  (find_first_executable_entry_error_panics "hello"
    [⟨"other", "/t/bin/other", .regular, true⟩] [] (by decide)).1

/-- C10: an install command terminated without an exit code (e.g. by a
signal) is still classified as a failure (`success` is false for an
absent code), but the `InstallFailed` error carries
`code().unwrap_or_default() = 0` — the same reported value an actual
exit code of 0 would produce, so the failure message is textually
indistinguishable from one reporting a genuine code 0. -/
theorem install_signal_reported_as_zero (args : Args) (env : Env)
    (dir : String)
    (hv : valid_crate_name args.install_crate = true)
    (hd : env.tempdir = some dir)
    (hs : env.installStatus = some ⟨none⟩) :
    ExitStatus.success ⟨none⟩ = false ∧
    (main_body args env).1 = .err (.installFailed 0) ∧
    (⟨none⟩ : ExitStatus).code.getD 0 = (⟨some 0⟩ : ExitStatus).code.getD 0 := by
  refine ⟨rfl, ?_, rfl⟩
  obtain ⟨td, ist, bl, cc, rs⟩ := env
  dsimp only at hd hs
  subst hd
  subst hs
  simp [main_body, hv, ExitStatus.success]

/-- C10 witness: the signal-terminated install invocation fails with
`InstallFailed 0`. -/
theorem install_signal_reported_as_zero_witness :
    (main_body helloArgs signalInstallEnv).1 = .err (.installFailed 0) :=
  (install_signal_reported_as_zero helloArgs signalInstallEnv "/t"
    (by decide) rfl rfl).2.1

end CargoTry
